import Mathlib

/-!
Shallow embedding of the k9sSetup tunnel-management core
(`src/k9sSetup/src/tunnel.py`, `src/k9sSetup/src/network_validator.py`,
`src/k9sSetup/src/multi_status.py`, `src/k9sSetup/multi_connect.py`).

Machine integers are modelled as `Nat`/`Int` with explicit `% 2 ^ 32`
wherever the 32-bit arithmetic of MD5 overflows.  The filesystem state
store (one `.pid` file and one `.network` file per context) is modelled
as association lists keyed by context name; the OS process table is
modelled as the list of live process ids plus the list of visible
command lines.
-/

namespace K9s

/-! ### MD5 (model of Python's `hashlib.md5`)

`get_unique_port` calls `hashlib.md5(context_name.encode()).hexdigest()[:4]`.
`hashlib.md5` is the Python standard library's RFC 1321 MD5; it is embedded
here in full so the allocator is executable. -/

/-- 32-bit bitwise complement. -/
def not32 (x : Nat) : Nat := x ^^^ 0xFFFFFFFF

/-- Left-rotation of a 32-bit word by `n` bits (`0 < n < 32`). -/
def rotl32 (x n : Nat) : Nat :=
  ((x % 2 ^ (32 - n)) * 2 ^ n) + (x / 2 ^ (32 - n))

/-- The 64 MD5 round constants `K[i] = floor(abs(sin(i+1)) * 2^32)`. -/
def md5K : List Nat :=
  [0xd76aa478, 0xe8c7b756, 0x242070db, 0xc1bdceee,
   0xf57c0faf, 0x4787c62a, 0xa8304613, 0xfd469501,
   0x698098d8, 0x8b44f7af, 0xffff5bb1, 0x895cd7be,
   0x6b901122, 0xfd987193, 0xa679438e, 0x49b40821,
   0xf61e2562, 0xc040b340, 0x265e5a51, 0xe9b6c7aa,
   0xd62f105d, 0x02441453, 0xd8a1e681, 0xe7d3fbc8,
   0x21e1cde6, 0xc33707d6, 0xf4d50d87, 0x455a14ed,
   0xa9e3e905, 0xfcefa3f8, 0x676f02d9, 0x8d2a4c8a,
   0xfffa3942, 0x8771f681, 0x6d9d6122, 0xfde5380c,
   0xa4beea44, 0x4bdecfa9, 0xf6bb4b60, 0xbebfbc70,
   0x289b7ec6, 0xeaa127fa, 0xd4ef3085, 0x04881d05,
   0xd9d4d039, 0xe6db99e5, 0x1fa27cf8, 0xc4ac5665,
   0xf4292244, 0x432aff97, 0xab9423a7, 0xfc93a039,
   0x655b59c3, 0x8f0ccc92, 0xffeff47d, 0x85845dd1,
   0x6fa87e4f, 0xfe2ce6e0, 0xa3014314, 0x4e0811a1,
   0xf7537e82, 0xbd3af235, 0x2ad7d2bb, 0xeb86d391]

/-- The 64 MD5 per-round left-rotation amounts. -/
def md5S : List Nat :=
  [7, 12, 17, 22, 7, 12, 17, 22, 7, 12, 17, 22, 7, 12, 17, 22,
   5, 9, 14, 20, 5, 9, 14, 20, 5, 9, 14, 20, 5, 9, 14, 20,
   4, 11, 16, 23, 4, 11, 16, 23, 4, 11, 16, 23, 4, 11, 16, 23,
   6, 10, 15, 21, 6, 10, 15, 21, 6, 10, 15, 21, 6, 10, 15, 21]

/-- Little-endian byte decomposition of `n` into `count` bytes. -/
def leBytes (n count : Nat) : List Nat :=
  (List.range count).map (fun i => (n / 2 ^ (8 * i)) % 256)

/-- MD5 padding: append `0x80`, zero bytes up to 56 mod 64, then the
original bit length as 8 little-endian bytes. -/
def md5Pad (msg : List Nat) : List Nat :=
  let len := msg.length
  let zeros := ((56 + 64 - (len + 1) % 64) % 64)
  msg ++ [0x80] ++ List.replicate zeros 0 ++ leBytes ((len * 8) % 2 ^ 64) 8

/-- Split a byte list into 64-byte chunks. -/
def chunks64 (l : List Nat) : List (List Nat) :=
  if h : l = [] then []
  else
    have : l.length - 64 < l.length := by
      have : l.length ≠ 0 := fun hl => h (List.eq_nil_of_length_eq_zero hl)
      omega
    l.take 64 :: chunks64 (l.drop 64)
termination_by l.length
decreasing_by simpa using this

/-- The `i`-th little-endian 32-bit word of a 64-byte chunk. -/
def leWord (chunk : List Nat) (i : Nat) : Nat :=
  chunk.getD (4 * i) 0 + 256 * chunk.getD (4 * i + 1) 0 +
    65536 * chunk.getD (4 * i + 2) 0 + 16777216 * chunk.getD (4 * i + 3) 0

/-- One MD5 round: state `(A, B, C, D)`, message words `M`, round index `i`. -/
def md5Round (M : List Nat) (st : Nat × Nat × Nat × Nat) (i : Nat) :
    Nat × Nat × Nat × Nat :=
  let A := st.1
  let B := st.2.1
  let C := st.2.2.1
  let D := st.2.2.2
  let F :=
    if i < 16 then (B &&& C) ||| (not32 B &&& D)
    else if i < 32 then (D &&& B) ||| (not32 D &&& C)
    else if i < 48 then B ^^^ C ^^^ D
    else C ^^^ (B ||| not32 D)
  let g :=
    if i < 16 then i
    else if i < 32 then (5 * i + 1) % 16
    else if i < 48 then (3 * i + 5) % 16
    else (7 * i) % 16
  let tmp := (F + A + md5K.getD i 0 + M.getD g 0) % 2 ^ 32
  (D, (B + rotl32 tmp (md5S.getD i 0)) % 2 ^ 32, B, C)

/-- Process one 64-byte chunk: 64 rounds, then add into the running state. -/
def md5Chunk (st : Nat × Nat × Nat × Nat) (chunk : List Nat) :
    Nat × Nat × Nat × Nat :=
  let M := (List.range 16).map (leWord chunk)
  let r := (List.range 64).foldl (md5Round M) st
  ((st.1 + r.1) % 2 ^ 32, (st.2.1 + r.2.1) % 2 ^ 32,
   (st.2.2.1 + r.2.2.1) % 2 ^ 32, (st.2.2.2 + r.2.2.2) % 2 ^ 32)

/-- The 16-byte MD5 digest of a byte string. -/
def md5Bytes (msg : List Nat) : List Nat :=
  let st := (chunks64 (md5Pad msg)).foldl md5Chunk
    (0x67452301, 0xefcdab89, 0x98badcfe, 0x10325476)
  leBytes st.1 4 ++ leBytes st.2.1 4 ++ leBytes st.2.2.1 4 ++ leBytes st.2.2.2 4

/-- Two lowercase hex characters of a byte (`Nat.digitChar` maps 10–15 to
`a`–`f`). -/
def byteHex (b : Nat) : List Char :=
  [Nat.digitChar (b / 16), Nat.digitChar (b % 16)]

/-- Model of Python's `.hexdigest()`: the digest bytes in lowercase hex. -/
def hexdigest (bytes : List Nat) : String :=
  String.mk ((bytes.map byteHex).flatten)

/-- Value of one lowercase hex character. -/
def hexVal (c : Char) : Nat :=
  if c.isDigit then c.toNat - 48 else c.toNat - 87

/-- Model of Python's `int(s[:4], 16)` applied to a hex string: parse the
first four characters in base 16. -/
def parseHex4 (s : String) : Nat :=
  (s.toList.take 4).foldl (fun a c => a * 16 + hexVal c) 0

/-- Model of Python's `str.encode()`: the UTF-8 bytes of the string. -/
def strBytes (s : String) : List Nat :=
  s.toUTF8.toList.map (fun b => b.toNat)

/-- `get_unique_port` (tunnel.py): deterministic port from the MD5 hash of
the context name, reduced into `[port_range_start,
port_range_start + port_range_size)`.  The Python defaults are
`port_range_start = 16443`, `port_range_size = 10000`. -/
def get_unique_port (context_name : String)
    (port_range_start port_range_size : Nat) : Nat :=
  let hash_int := parseHex4 (hexdigest (md5Bytes (strBytes context_name)))
  port_range_start + hash_int % port_range_size

/-! ### Python integer parsing and printing

The pid files are read with `int(f.read().strip())` and written with
`f.write(str(pid))`.  Python's `int()` is modelled on its core grammar
(optional surrounding whitespace, one optional sign, a nonempty run of
decimal digits); `str()` on an integer is modelled by `intStr`. -/

/-- Python `str.strip()` whitespace characters. -/
def isPySpace (c : Char) : Bool :=
  c = ' ' || c = '\t' || c = '\n' || c = '\r' || c = '\x0b' || c = '\x0c'

/-- Model of Python's `str.strip()` on a character list. -/
def stripChars (cs : List Char) : List Char :=
  ((cs.dropWhile isPySpace).reverse.dropWhile isPySpace).reverse

/-- Parse a nonempty all-decimal-digit character run, else `none`. -/
def parseDigits (cs : List Char) : Option Nat :=
  if cs.isEmpty then none
  else if cs.all Char.isDigit then
    some (cs.foldl (fun a c => a * 10 + (c.toNat - 48)) 0)
  else none

/-- Parse an optional sign followed by digits, else `none`. -/
def parseIntChars (cs : List Char) : Option Int :=
  match cs with
  | [] => none
  | c :: rest =>
    if c = '-' then (parseDigits rest).map (fun n => -(n : Int))
    else if c = '+' then (parseDigits rest).map (fun n => (n : Int))
    else (parseDigits cs).map (fun n => (n : Int))

/-- Model of Python's `int(s.strip())`: `some` value on success, `none`
where Python raises `ValueError`. -/
def pyParseInt (s : String) : Option Int :=
  parseIntChars (stripChars s.toList)

/-- Decimal digits of a natural number, most significant first. -/
def natDigits (n : Nat) : List Char :=
  if h : n < 10 then [Nat.digitChar n]
  else
    have : n / 10 < n := Nat.div_lt_self (by omega) (by omega)
    natDigits (n / 10) ++ [Nat.digitChar (n % 10)]
termination_by n

/-- Model of Python's `str()` on an integer. -/
def intStr (p : Int) : String :=
  if p < 0 then String.mk ('-' :: natDigits p.natAbs)
  else String.mk (natDigits p.natAbs)

/-! ### State model

The durable state is the tunnel state directory: one `{context}.pid` file
(raw string content) and one `{context}.network` file (structured network
metadata) per context.  The OS contributes the set of live process ids
(probed with `os.kill(pid, 0)`; a pid outside `live` raises
`ProcessLookupError`/`OSError` there) and, for `pgrep -f`, the list of
visible process command lines.  A ghost counter `spawns` counts the `ssh`
processes spawned, to express "no duplicate spawn". -/

/-- Contents of a `{context}.network` file.  `save_network_metadata` drops
`None`-valued keys before writing, so optional keys are `Option`; the
`needs_vpn` key is a `bool` and is always present in a written file. -/
structure NetworkMetadata where
  network_type : Option String
  network_range : Option String
  sshuttle_command : Option String
  needs_vpn : Bool
  internal_ip : Option String
deriving DecidableEq, Repr

/-- First value bound to key `k`, like a filesystem lookup of `k`. -/
def fsGet {α : Type} (k : String) : List (String × α) → Option α
  | [] => none
  | (k', v) :: rest => if k' = k then some v else fsGet k rest

/-- Remove every binding of key `k` (file deletion). -/
def fsDel {α : Type} (k : String) : List (String × α) → List (String × α)
  | [] => []
  | p :: rest => if p.1 = k then fsDel k rest else p :: fsDel k rest

/-- Write key `k` (file creation or overwrite). -/
def fsPut {α : Type} (k : String) (v : α) (l : List (String × α)) :
    List (String × α) :=
  fsDel k l ++ [(k, v)]

/-- The tunnel state directory plus the relevant OS process state. -/
structure TunnelState where
  pidFiles : List (String × String)
  netFiles : List (String × NetworkMetadata)
  live : List Int
  spawns : Nat
deriving DecidableEq, Repr

/-! ### tunnel.py -/

/-- `is_tunnel_running` (tunnel.py): if the pid file is missing, `False`;
otherwise parse the pid and probe it with `os.kill(pid, 0)`.  A
`ValueError` (unparseable content), `ProcessLookupError` or `OSError`
(dead or unsignalable pid) leads to `pid_file.unlink(missing_ok=True)`
and `False`.  Returns the result together with the updated state. -/
def is_tunnel_running (context_name : String) (st : TunnelState) :
    Bool × TunnelState :=
  match fsGet context_name st.pidFiles with
  | none => (false, st)
  | some content =>
    match pyParseInt content with
    | none => (false, { st with pidFiles := fsDel context_name st.pidFiles })
    | some pid =>
      if pid ∈ st.live then (true, st)
      else (false, { st with pidFiles := fsDel context_name st.pidFiles })

/-- `kill_tunnel` (tunnel.py): if the pid file is missing, return; otherwise
parse the pid and send `SIGTERM` (modelled as removing the pid from the
live set when it is live); any `ValueError`/`ProcessLookupError`/`OSError`
is swallowed; the `finally` block always unlinks the pid file.  The
`.network` file is not touched. -/
def kill_tunnel (context_name : String) (st : TunnelState) : TunnelState :=
  match fsGet context_name st.pidFiles with
  | none => st
  | some content =>
    let live' :=
      match pyParseInt content with
      | none => st.live
      | some pid => st.live.filter (fun q => q ≠ pid)
    { st with live := live', pidFiles := fsDel context_name st.pidFiles }

/-- `save_tunnel_pid` (tunnel.py): writes `str(pid)` to the pid file, but
only under `if pid:` — a `None` (or `0`) pid writes nothing at all. -/
def save_tunnel_pid (context_name : String) (pid : Option Int)
    (st : TunnelState) : TunnelState :=
  match pid with
  | none => st
  | some p =>
    if p = 0 then st
    else { st with pidFiles := fsPut context_name (intStr p) st.pidFiles }

/-- Python truthiness of an optional string (`None` and `""` are falsy). -/
def pyTruthy : Option String → Bool
  | none => false
  | some s => !s.isEmpty

/-- `save_network_metadata` (tunnel.py): returns without writing when
`not network_type and not needs_vpn`; otherwise builds the metadata dict,
drops `None` values, and writes the `.network` file. -/
def save_network_metadata (context_name : String)
    (network_type network_range sshuttle_command : Option String)
    (needs_vpn : Bool) (internal_ip : Option String)
    (st : TunnelState) : TunnelState :=
  if !pyTruthy network_type && !needs_vpn then st
  else
    let metadata : NetworkMetadata :=
      { network_type := network_type
        network_range := network_range
        sshuttle_command := sshuttle_command
        needs_vpn := needs_vpn
        internal_ip := internal_ip }
    { st with netFiles := fsPut context_name metadata st.netFiles }

/-- `remove_network_metadata` (tunnel.py): `network_file.unlink(missing_ok=True)`. -/
def remove_network_metadata (context_name : String) (st : TunnelState) :
    TunnelState :=
  { st with netFiles := fsDel context_name st.netFiles }

/-! ### network_validator.py -/

/-- Is `pat` a contiguous substring of `hay`? -/
def charsContains (hay pat : List Char) : Bool :=
  match hay with
  | [] => pat.isEmpty
  | _ :: rest => pat.isPrefixOf hay || charsContains rest pat

/-- The suffix of `hay` after the first occurrence of `pat`, or `none`. -/
def afterFirst (hay pat : List Char) : Option (List Char) :=
  match hay with
  | [] => if pat.isEmpty then some [] else none
  | _ :: rest =>
    if pat.isPrefixOf hay then some (hay.drop pat.length)
    else afterFirst rest pat

/-- Search semantics of the regex `a.*b` over `hay`: an occurrence of `a`
followed (disjointly) by an occurrence of `b`.  The characters of `a` and
`b` are matched literally. -/
def matchDotStar (hay a b : List Char) : Bool :=
  match afterFirst hay a with
  | none => false
  | some s => charsContains s b

/-- `check_sshuttle_active` (network_validator.py): `pgrep -f
"sshuttle.*{network_range}"` over the visible process command lines; if
that finds nothing, fall back to `pgrep -f "sshuttle"`; `True` iff either
probe matches.  (The `except (TimeoutExpired, FileNotFoundError)` arm
returns `False`; the probes are modelled as given the process table, so
that arm does not arise.) -/
def check_sshuttle_active (procs : List String) (network_range : String) :
    Bool :=
  if procs.any (fun c =>
      matchDotStar c.toList ("sshuttle".toList) network_range.toList) then
    true
  else if procs.any (fun c => charsContains c.toList ("sshuttle".toList)) then
    true
  else false

/-- `get_network_metadata` (network_validator.py): `None` when the
`.network` file does not exist, else its parsed contents.  (Files in this
model are the structured values written by `save_network_metadata`; the
unparseable-yaml arm, which also returns `None` with a warning, has no
representation here.) -/
def get_network_metadata (context_name : String) (st : TunnelState) :
    Option NetworkMetadata :=
  fsGet context_name st.netFiles

/-- Python `f"{x}"` on an optional string: `None` prints as `"None"`. -/
def pyStrOpt : Option String → String
  | none => "None"
  | some s => s

/-- `validate_context_network` (network_validator.py): absent metadata →
`(True, None)`; `needs_vpn` → `(False, VPN warning)`; `network_type ==
'sshuttle'` with no active sshuttle → `(False, remediation warning)`;
otherwise `(True, None)`. -/
def validate_context_network (procs : List String) (context_name : String)
    (st : TunnelState) : Bool × Option String :=
  match get_network_metadata context_name st with
  | none => (true, none)
  | some metadata =>
    if metadata.needs_vpn then
      (false, some "This cluster requires VPN connection")
    else if metadata.network_type = some "sshuttle" then
      let network_range := pyStrOpt metadata.network_range
      let sshuttle_cmd :=
        match metadata.sshuttle_command with
        | some c => c
        | none => "sshuttle -v -r <gateway> " ++ network_range
      if check_sshuttle_active procs network_range then (true, none)
      else
        (false, some ("This cluster requires sshuttle for " ++ network_range
          ++ "\n  Run: " ++ sshuttle_cmd))
    else (true, none)

/-! ### multi_status.py -/

/-- Outcome of one `subprocess.run` invocation of an external command. -/
inductive RunOutcome where
  | completed (returncode : Int) (stdout : String)
  | timedOut
  | notFound
deriving DecidableEq, Repr

/-- The argv and the explicit timeout a `subprocess.run` call passes. -/
structure RunSpec where
  argv : List String
  timeoutSeconds : Option Nat
deriving DecidableEq, Repr

/-- The invocation `get_current_context` makes: `kubectl config
current-context` with `timeout=5`. -/
def current_context_invocation : RunSpec :=
  { argv := ["kubectl", "config", "current-context"], timeoutSeconds := some 5 }

/-- `get_current_context` (multi_status.py): `stdout.strip()` on exit code
0; `None` on non-zero exit, `TimeoutExpired`, or `FileNotFoundError`. -/
def get_current_context (outcome : RunOutcome) : Option String :=
  match outcome with
  | .completed rc out => if rc = 0 then some (String.mk (stripChars out.toList)) else none
  | .timedOut => none
  | .notFound => none

/-- `get_tunnel_pid` (multi_status.py): the recorded pid if the pid file
exists, parses, and the pid is live; `None` on a missing file or any
`ValueError`/`ProcessLookupError`/`OSError`.  Unlike `is_tunnel_running`
it never deletes the file. -/
def get_tunnel_pid (context_name : String) (st : TunnelState) : Option Int :=
  match fsGet context_name st.pidFiles with
  | none => none
  | some content =>
    match pyParseInt content with
    | none => none
    | some pid => if pid ∈ st.live then some pid else none

/-! ### multi_connect.py -/

/-- The OS-dependent outcome of one spawn attempt: whether `ssh` exited 0,
the pid of the background process it left, and whether the `pgrep`
discovery of that pid succeeds. -/
structure SpawnEnv where
  sshOk : Bool
  realPid : Int
  discoveryOk : Bool
deriving DecidableEq, Repr

/-- `create_tunnel` (tunnel.py): run `ssh -f -N -o ExitOnForwardFailure=yes
-o ServerAliveInterval=60 -L ...`; non-zero exit raises `RuntimeError`;
otherwise a background ssh process is left running (counted in `spawns`),
and after a settle delay `pgrep` recovers its pid, or returns `None` when
discovery fails. -/
def create_tunnel (env : SpawnEnv) (st : TunnelState) :
    Except String (Option Int × TunnelState) :=
  if !env.sshOk then .error "Failed to create SSH tunnel"
  else
    let st' := { st with live := env.realPid :: st.live, spawns := st.spawns + 1 }
    .ok ((if env.discoveryOk then some env.realPid else none), st')

/-- Result dict of `connect_cluster` (the fields its tunnel section sets). -/
structure ConnectResult where
  success : Bool
  tunnel_pid : Option Int
  local_port : Nat
  error : Option String
deriving DecidableEq, Repr

/-- The tunnel-setup and metadata section of `connect_cluster`
(multi_connect.py, the body after the kubeconfig fetch): fast path when
`is_tunnel_running`, re-reading the recorded pid; otherwise
`create_tunnel` then `save_tunnel_pid`; then `save_network_metadata` when
the cluster has a network requirement; any exception is caught and turned
into a failure result.

Modelled from the spec: the preceding `fetch_and_merge_kubeconfig` call
lives in `fetch_k3s_config.py`, which is not among the sources; per §4.2
and §4.4 of the spec it returns the local port recomputed by the pure
Port Allocator, i.e. `get_unique_port context_name 16443 10000`. -/
def connect_cluster (env : SpawnEnv) (context_name : String)
    (network_type network_range : Option String) (needs_vpn : Bool)
    (internal_ip : String) (st : TunnelState) :
    ConnectResult × TunnelState :=
  let local_port := get_unique_port context_name 16443 10000
  let r := is_tunnel_running context_name st
  let st1 := r.2
  let afterTunnel : Except String (Option Int × TunnelState) :=
    if r.1 then
      match fsGet context_name st1.pidFiles with
      | none => .ok (none, st1)
      | some content =>
        match pyParseInt content with
        | none => .error "invalid literal for int()"
        | some pid => .ok (some pid, st1)
    else
      match create_tunnel env st1 with
      | .error e => .error e
      | .ok (pid, st2) => .ok (pid, save_tunnel_pid context_name pid st2)
  match afterTunnel with
  | .error e =>
    ({ success := false, tunnel_pid := none, local_port := local_port,
       error := some e }, st1)
  | .ok (pid, st2) =>
    let st3 :=
      if pyTruthy network_type || needs_vpn then
        let sshuttle_cmd :=
          if network_type = some "sshuttle" then
            some ("sshuttle -v -r helio@100.64.5.10 " ++ pyStrOpt network_range)
          else none
        save_network_metadata context_name network_type network_range
          sshuttle_cmd needs_vpn (some internal_ip) st2
      else st2
    ({ success := true, tunnel_pid := pid, local_port := local_port,
       error := none }, st3)

/-! ### Crash-visibility of writes (for the atomicity claim)

`save_tunnel_pid` writes with `open(pid_file, "w")` followed by
`f.write(str(pid))`, and `save_network_metadata` writes with
`open(network_file, "w")` followed by `yaml.safe_dump(metadata, f)` — in
both cases the destination path itself is opened with truncation and
written in place; no temporary file and no rename is involved.  The
successive contents visible at the destination path are therefore: the
old contents, the empty file left by the truncating open, and the new
contents. -/

/-- Successive crash-visible contents at the destination path of an
in-place truncate-then-write. -/
def inPlaceWriteVisible (old : Option String) (written : String) :
    List (Option String) :=
  [old, some "", some written]

/-- The crash-visible contents during `save_tunnel_pid` for a truthy pid. -/
def save_tunnel_pid_visible (old : Option String) (pid : Int) :
    List (Option String) :=
  inPlaceWriteVisible old (intStr pid)

/-- The atomicity property claimed of the writers: every crash-visible
intermediate state is either the old contents or the new contents. -/
def atomicVisible (states : List (Option String)) (old final : Option String) :
    Bool :=
  states.all (fun s => s == old || s == final)

/-! ### Association-list lemmas -/

theorem fsDel_cons {α : Type} (k : String) (p : String × α)
    (rest : List (String × α)) :
    fsDel k (p :: rest) = if p.1 = k then fsDel k rest
      else p :: fsDel k rest := rfl

theorem fsGet_cons {α : Type} (k : String) (p : String × α)
    (rest : List (String × α)) :
    fsGet k (p :: rest) = if p.1 = k then some p.2 else fsGet k rest := rfl

theorem fsGet_fsDel_self {α : Type} (k : String) (l : List (String × α)) :
    fsGet k (fsDel k l) = none := by
  induction l with
  | nil => rfl
  | cons p rest ih =>
    rw [fsDel_cons]
    by_cases h : p.1 = k
    · rw [if_pos h]; exact ih
    · rw [if_neg h, fsGet_cons, if_neg h]; exact ih

theorem fsDel_filter_nil {α : Type} (k : String) (l : List (String × α)) :
    (fsDel k l).filter (fun p => p.1 = k) = [] := by
  induction l with
  | nil => rfl
  | cons p rest ih =>
    rw [fsDel_cons]
    by_cases h : p.1 = k
    · rw [if_pos h]; exact ih
    · rw [if_neg h, List.filter_cons, if_neg (by simpa using h)]
      exact ih

theorem fsGet_append {α : Type} (k : String) (l₁ l₂ : List (String × α))
    (h : fsGet k l₁ = none) : fsGet k (l₁ ++ l₂) = fsGet k l₂ := by
  induction l₁ with
  | nil => rfl
  | cons p rest ih =>
    rw [fsGet_cons] at h
    by_cases hp : p.1 = k
    · rw [if_pos hp] at h; exact absurd h (by simp)
    · rw [if_neg hp] at h
      rw [List.cons_append, fsGet_cons, if_neg hp]
      exact ih h

theorem fsGet_fsPut_self {α : Type} (k : String) (v : α)
    (l : List (String × α)) : fsGet k (fsPut k v l) = some v := by
  rw [fsPut, fsGet_append k _ _ (fsGet_fsDel_self k l)]
  simp [fsGet]

theorem fsPut_count_one {α : Type} (k : String) (v : α)
    (l : List (String × α)) :
    ((fsPut k v l).filter (fun p => p.1 = k)).length = 1 := by
  rw [fsPut, List.filter_append, fsDel_filter_nil]
  simp

/-! ### Round-trip between `intStr` and `pyParseInt` -/

theorem digitChar_toNat (n : Nat) (h : n < 10) :
    (Nat.digitChar n).toNat = 48 + n := by
  interval_cases n <;> rfl

theorem digitChar_isDigit (n : Nat) (h : n < 10) :
    (Nat.digitChar n).isDigit = true := by
  interval_cases n <;> rfl

theorem natDigits_ne_nil (n : Nat) : natDigits n ≠ [] := by
  rw [natDigits]
  split <;> simp

theorem natDigits_all_digit (n : Nat) :
    ∀ c ∈ natDigits n, c.isDigit = true := by
  induction n using Nat.strong_induction_on with
  | _ n ih =>
    rw [natDigits]
    split
    · intro c hc
      rw [List.mem_singleton] at hc
      subst hc
      exact digitChar_isDigit n (by omega)
    · rename_i h
      intro c hc
      rw [List.mem_append] at hc
      rcases hc with hc | hc
      · exact ih (n / 10) (Nat.div_lt_self (by omega) (by omega)) c hc
      · rw [List.mem_singleton] at hc
        subst hc
        exact digitChar_isDigit (n % 10) (Nat.mod_lt n (by omega))

theorem natDigits_foldl (n : Nat) : ∀ a : Nat,
    (natDigits n).foldl (fun a c => a * 10 + (c.toNat - 48)) a
      = a * 10 ^ (natDigits n).length + n := by
  induction n using Nat.strong_induction_on with
  | _ n ih =>
    intro a
    rw [natDigits]
    split
    · rename_i h
      simp [List.foldl, digitChar_toNat n h]
    · rename_i h
      rw [List.foldl_append, ih (n / 10) (Nat.div_lt_self (by omega) (by omega)) a]
      simp only [List.foldl, List.length_append, List.length_singleton]
      rw [digitChar_toNat (n % 10) (Nat.mod_lt n (by omega))]
      have hmod : 48 + n % 10 - 48 = n % 10 := by omega
      rw [hmod, pow_succ]
      have hdm : 10 * (n / 10) + n % 10 = n := Nat.div_add_mod n 10
      set m := a * 10 ^ (natDigits (n / 10)).length with hm
      ring_nf
      omega

theorem parseDigits_natDigits (n : Nat) :
    parseDigits (natDigits n) = some n := by
  rw [parseDigits]
  have hne : ¬ (natDigits n).isEmpty := by
    simpa [List.isEmpty_iff] using natDigits_ne_nil n
  rw [if_neg hne, if_pos]
  · rw [natDigits_foldl n 0]
    simp
  · rw [List.all_eq_true]
    exact natDigits_all_digit n

theorem isDigit_not_space (c : Char) (h : c.isDigit = true) :
    isPySpace c = false := by
  by_contra hs
  rw [Bool.not_eq_false] at hs
  simp only [isPySpace, Bool.or_eq_true, decide_eq_true_eq] at hs
  rcases hs with ((((h1 | h1) | h1) | h1) | h1) | h1 <;>
    (subst h1; exact absurd h (by decide))

theorem dropWhile_eq_self_of_none {α : Type} (p : α → Bool) (l : List α)
    (h : ∀ c ∈ l, p c = false) : l.dropWhile p = l := by
  cases l with
  | nil => rfl
  | cons x xs =>
    rw [List.dropWhile_cons, h x (List.mem_cons_self x xs)]
    simp

theorem stripChars_of_no_space (cs : List Char)
    (h : ∀ c ∈ cs, isPySpace c = false) : stripChars cs = cs := by
  rw [stripChars, dropWhile_eq_self_of_none _ _ h,
    dropWhile_eq_self_of_none _ _ (by
      intro c hc
      exact h c (by simpa using hc)),
    List.reverse_reverse]

theorem pyParseInt_intStr (p : Int) : pyParseInt (intStr p) = some p := by
  have habs : ∀ m : Nat, parseIntChars (natDigits m) = some (m : Int) := by
    intro m
    obtain ⟨d, ds, hds⟩ := List.exists_cons_of_ne_nil (natDigits_ne_nil m)
    have hd : d.isDigit = true := by
      apply natDigits_all_digit m
      rw [hds]; exact List.mem_cons_self d ds
    have hd1 : d ≠ '-' := by
      intro he; subst he; exact absurd hd (by decide)
    have hd2 : d ≠ '+' := by
      intro he; subst he; exact absurd hd (by decide)
    rw [hds]
    show (if d = '-' then (parseDigits ds).map (fun n => -(n : Int))
      else if d = '+' then (parseDigits ds).map (fun n => (n : Int))
      else (parseDigits (d :: ds)).map (fun n => (n : Int)))
      = some (m : Int)
    rw [if_neg hd1, if_neg hd2, ← hds, parseDigits_natDigits m]
    rfl
  rw [pyParseInt, intStr]
  split
  · rename_i hneg
    have hcs : (String.mk ('-' :: natDigits p.natAbs)).toList
        = '-' :: natDigits p.natAbs := rfl
    rw [hcs, stripChars_of_no_space _ (by
      intro c hc
      rcases List.mem_cons.mp hc with hc | hc
      · subst hc; rfl
      · exact isDigit_not_space c (natDigits_all_digit _ c hc))]
    show (if ('-' : Char) = '-' then
        (parseDigits (natDigits p.natAbs)).map (fun n => -(n : Int))
      else if ('-' : Char) = '+' then
        (parseDigits (natDigits p.natAbs)).map (fun n => (n : Int))
      else (parseDigits ('-' :: natDigits p.natAbs)).map (fun n => (n : Int)))
      = some p
    rw [if_pos rfl, parseDigits_natDigits]
    show some (-(p.natAbs : Int)) = some p
    congr 1
    omega
  · rename_i hpos
    have hcs : (String.mk (natDigits p.natAbs)).toList
        = natDigits p.natAbs := rfl
    rw [hcs, stripChars_of_no_space _ (by
      intro c hc
      exact isDigit_not_space c (natDigits_all_digit _ c hc))]
    rw [habs p.natAbs]
    congr 1
    omega

theorem intStr_ne_empty (p : Int) : intStr p ≠ "" := by
  rw [intStr]
  split
  · intro h
    have : ('-' :: natDigits p.natAbs) = [] := congrArg String.toList h
    simp at this
  · intro h
    have : natDigits p.natAbs = [] := congrArg String.toList h
    exact natDigits_ne_nil _ this

/-- `save_network_metadata` touches only the `.network` files: the pid
files, the live set and the spawn count are unchanged. -/
theorem save_network_metadata_preserves (ctx : String)
    (nt nr sc : Option String) (nv : Bool) (iip : Option String)
    (st : TunnelState) :
    (save_network_metadata ctx nt nr sc nv iip st).pidFiles = st.pidFiles
    ∧ (save_network_metadata ctx nt nr sc nv iip st).live = st.live
    ∧ (save_network_metadata ctx nt nr sc nv iip st).spawns = st.spawns := by
  rw [save_network_metadata]
  split <;> exact ⟨rfl, rfl, rfl⟩

/-! ### Claim theorems -/

/-- C1: the port allocator is a pure deterministic function — for every
context string `get_unique_port` returns the same port on every call
(being a side-effect-free function of the context string alone, two calls
are the same term), and for the default range (`port_range_start = 16443`,
`port_range_size = 10000`) the returned port always lies in
`[16443, 26443)`. -/
theorem get_unique_port_deterministic_in_range (ctx : String) :
    get_unique_port ctx 16443 10000 = get_unique_port ctx 16443 10000
    ∧ 16443 ≤ get_unique_port ctx 16443 10000
    ∧ get_unique_port ctx 16443 10000 < 26443 := by
  refine ⟨rfl, Nat.le_add_right _ _, ?_⟩
  show 16443 + parseHex4 (hexdigest (md5Bytes (strBytes ctx))) % 10000 < 26443
  have : parseHex4 (hexdigest (md5Bytes (strBytes ctx))) % 10000 < 10000 :=
    Nat.mod_lt _ (by norm_num)
  omega

/-- C2 counterexample: for a context holding both a TunnelRecord (with a
dead pid) and a NetworkMetadata file, `kill_tunnel` removes the
TunnelRecord but leaves the NetworkMetadata file in place, refuting the
claim that it removes both. -/
theorem kill_tunnel_leaves_network_metadata :
    let meta : NetworkMetadata :=
      { network_type := some "sshuttle"
        network_range := some "192.168.90.0/24"
        sshuttle_command := none
        needs_vpn := false
        internal_ip := none }
    let st : TunnelState :=
      { pidFiles := [("acme-prod1", "99")]
        netFiles := [("acme-prod1", meta)]
        live := []
        spawns := 0 }
    fsGet "acme-prod1" (kill_tunnel "acme-prod1" st).pidFiles = none
    ∧ fsGet "acme-prod1" (kill_tunnel "acme-prod1" st).netFiles = some meta :=
  ⟨rfl, rfl⟩

/-- C2 amended: `kill_tunnel` unconditionally removes the TunnelRecord —
also when the recorded pid is dead or the record is unparseable — and
surfaces no error (it is a total function), but it leaves the
NetworkMetadata untouched; the separate `remove_network_metadata`
operation is what removes the NetworkMetadata file. -/
theorem kill_tunnel_unconditional_record_cleanup (ctx : String)
    (st : TunnelState) :
    fsGet ctx (kill_tunnel ctx st).pidFiles = none
    ∧ (kill_tunnel ctx st).netFiles = st.netFiles
    ∧ fsGet ctx (remove_network_metadata ctx st).netFiles = none := by
  refine ⟨?_, ?_, fsGet_fsDel_self ctx st.netFiles⟩
  · rw [kill_tunnel]
    split
    · rename_i h
      exact h
    · exact fsGet_fsDel_self ctx st.pidFiles
  · rw [kill_tunnel]
    split
    · rfl
    · rfl

/-- C5: `save_network_metadata` with no `network_type` and `needs_vpn`
false creates no file (it is the identity on the state), a subsequent
`get_network_metadata` for a context with no file reports the absent
sentinel `none` (not an error), and a `.network` file can only come into
existence when `network_type` is truthy or `needs_vpn` is true. -/
theorem save_network_metadata_no_requirement_no_file (ctx : String)
    (nr sc iip : Option String) (st : TunnelState)
    (h : fsGet ctx st.netFiles = none) :
    save_network_metadata ctx none nr sc false iip st = st
    ∧ get_network_metadata ctx
        (save_network_metadata ctx none nr sc false iip st) = none
    ∧ ∀ (nt : Option String) (nv : Bool),
        fsGet ctx (save_network_metadata ctx nt nr sc nv iip st).netFiles
          ≠ none →
        pyTruthy nt = true ∨ nv = true := by
  refine ⟨rfl, h, ?_⟩
  intro nt nv hne
  by_cases hc : (!pyTruthy nt && !nv) = true
  · rw [save_network_metadata, if_pos hc] at hne
    exact absurd h hne
  · cases hnt : pyTruthy nt with
    | true => exact Or.inl rfl
    | false =>
      cases hnv : nv with
      | true => exact Or.inr rfl
      | false => exact absurd (by rw [hnt, hnv]; rfl) hc

/-- C5 witness: a concrete context with no `.network` file. -/
theorem save_network_metadata_no_requirement_no_file_witness :
    save_network_metadata "acme-prod1" none none none false
      (some "10.0.5.20")
      { pidFiles := [], netFiles := [], live := [], spawns := 0 }
      = { pidFiles := [], netFiles := [], live := [], spawns := 0 }
    ∧ get_network_metadata "acme-prod1"
        (save_network_metadata "acme-prod1" none none none false
          (some "10.0.5.20")
          { pidFiles := [], netFiles := [], live := [], spawns := 0 })
      = none :=
  ⟨(save_network_metadata_no_requirement_no_file "acme-prod1" none none
      (some "10.0.5.20")
      { pidFiles := [], netFiles := [], live := [], spawns := 0 } rfl).1,
   (save_network_metadata_no_requirement_no_file "acme-prod1" none none
      (some "10.0.5.20")
      { pidFiles := [], netFiles := [], live := [], spawns := 0 } rfl).2.1⟩

/-- C9: `get_current_context` returns the absent sentinel `None` whenever
the external current-context query exits non-zero, is missing
(`FileNotFoundError`), or exceeds its timeout (`TimeoutExpired`), and the
invocation carries an explicit bounded timeout (5 seconds), so the call
never blocks indefinitely. -/
theorem get_current_context_absent_on_failure :
    (∀ (rc : Int) (out : String), rc ≠ 0 →
      get_current_context (RunOutcome.completed rc out) = none)
    ∧ get_current_context RunOutcome.timedOut = none
    ∧ get_current_context RunOutcome.notFound = none
    ∧ current_context_invocation.timeoutSeconds = some 5 := by
  refine ⟨?_, rfl, rfl, rfl⟩
  intro rc out h
  show (if rc = 0 then some (String.mk (stripChars out.toList)) else none)
    = none
  rw [if_neg h]

/-- C9 witness: the failure outcomes at concrete inputs. -/
theorem get_current_context_absent_on_failure_witness :
    get_current_context (RunOutcome.completed 1 "acme-prod1") = none
    ∧ get_current_context RunOutcome.timedOut = none :=
  ⟨get_current_context_absent_on_failure.1 1 "acme-prod1" (by decide),
   get_current_context_absent_on_failure.2.1⟩

/-- C10 (implicit): a TunnelRecord whose content does not parse as a
decimal integer is treated exactly like a dead process: the total
function `is_tunnel_running` absorbs the `ValueError`, deletes the file
and returns false, and the total function `get_tunnel_pid` returns
`none`; neither operation propagates an exception (both are total Lean
functions into `Bool`/`Option`). -/
theorem unparseable_record_treated_as_dead (ctx content : String)
    (st : TunnelState)
    (h1 : fsGet ctx st.pidFiles = some content)
    (h2 : pyParseInt content = none) :
    (is_tunnel_running ctx st).1 = false
    ∧ fsGet ctx ((is_tunnel_running ctx st).2).pidFiles = none
    ∧ get_tunnel_pid ctx st = none := by
  have hrun : is_tunnel_running ctx st
      = (false, { st with pidFiles := fsDel ctx st.pidFiles }) := by
    simp only [is_tunnel_running, h1, h2]
  refine ⟨by rw [hrun], by rw [hrun]; exact fsGet_fsDel_self ctx st.pidFiles, ?_⟩
  simp only [get_tunnel_pid, h1, h2]

/-- C10 witness: a concrete state with content `"garbage"`. -/
theorem unparseable_record_treated_as_dead_witness :
    (is_tunnel_running "acme-prod1"
      { pidFiles := [("acme-prod1", "garbage")], netFiles := [], live := [],
        spawns := 0 }).1 = false
    ∧ fsGet "acme-prod1" ((is_tunnel_running "acme-prod1"
        { pidFiles := [("acme-prod1", "garbage")], netFiles := [], live := [],
          spawns := 0 }).2).pidFiles = none
    ∧ get_tunnel_pid "acme-prod1"
        { pidFiles := [("acme-prod1", "garbage")], netFiles := [], live := [],
          spawns := 0 } = none :=
  unparseable_record_treated_as_dead "acme-prod1" "garbage" _ rfl (by decide)

/-- C4: self-healing liveness — for a context whose TunnelRecord exists
but whose recorded pid refers to no live process, `is_tunnel_running`
returns false and deletes the record (a subsequent read of the
TunnelRecord finds it absent), and for every state calling
`is_tunnel_running` twice in a row leaves the same end state as calling
it once. -/
theorem is_tunnel_running_self_healing (ctx content : String) (pid : Int)
    (st : TunnelState)
    (h1 : fsGet ctx st.pidFiles = some content)
    (h2 : pyParseInt content = some pid)
    (h3 : pid ∉ st.live) :
    (is_tunnel_running ctx st).1 = false
    ∧ fsGet ctx ((is_tunnel_running ctx st).2).pidFiles = none
    ∧ ∀ st' : TunnelState,
        (is_tunnel_running ctx (is_tunnel_running ctx st').2).2
          = (is_tunnel_running ctx st').2 := by
  have hrun : is_tunnel_running ctx st
      = (false, { st with pidFiles := fsDel ctx st.pidFiles }) := by
    simp only [is_tunnel_running, h1, h2, if_neg h3]
  refine ⟨by rw [hrun], by rw [hrun]; exact fsGet_fsDel_self ctx st.pidFiles, ?_⟩
  intro st'
  rcases hg : fsGet ctx st'.pidFiles with _ | content'
  · simp only [is_tunnel_running, hg]
  · rcases hp : pyParseInt content' with _ | pid'
    · simp only [is_tunnel_running, hg, hp, fsGet_fsDel_self]
    · by_cases hl : pid' ∈ st'.live
      · simp only [is_tunnel_running, hg, hp, if_pos hl]
      · simp only [is_tunnel_running, hg, hp, if_neg hl, fsGet_fsDel_self]

/-- C4 witness: a concrete record `"12345"` with no live process. -/
theorem is_tunnel_running_self_healing_witness :
    (is_tunnel_running "acme-prod1"
      { pidFiles := [("acme-prod1", "12345")], netFiles := [], live := [],
        spawns := 0 }).1 = false
    ∧ fsGet "acme-prod1" ((is_tunnel_running "acme-prod1"
        { pidFiles := [("acme-prod1", "12345")], netFiles := [], live := [],
          spawns := 0 }).2).pidFiles = none
    ∧ (is_tunnel_running "acme-prod1"
        (is_tunnel_running "acme-prod1"
          { pidFiles := [("acme-prod1", "12345")], netFiles := [], live := [],
            spawns := 0 }).2).2
      = (is_tunnel_running "acme-prod1"
          { pidFiles := [("acme-prod1", "12345")], netFiles := [], live := [],
            spawns := 0 }).2 :=
  ⟨(is_tunnel_running_self_healing "acme-prod1" "12345" 12345
      { pidFiles := [("acme-prod1", "12345")], netFiles := [], live := [],
        spawns := 0 } rfl (by decide) (by decide)).1,
   (is_tunnel_running_self_healing "acme-prod1" "12345" 12345
      { pidFiles := [("acme-prod1", "12345")], netFiles := [], live := [],
        spawns := 0 } rfl (by decide) (by decide)).2.1,
   (is_tunnel_running_self_healing "acme-prod1" "12345" 12345
      { pidFiles := [("acme-prod1", "12345")], netFiles := [], live := [],
        spawns := 0 } rfl (by decide) (by decide)).2.2
      { pidFiles := [("acme-prod1", "12345")], netFiles := [], live := [],
        spawns := 0 }⟩

/-- C7 counterexample: the pid-file write is not atomic with respect to a
crash between content-written and file-visible — the implementation opens
the destination path with truncation and writes in place, so the empty
file is a crash-visible intermediate state that is neither the old nor
the new contents. -/
theorem save_tunnel_pid_write_not_atomic :
    atomicVisible (save_tunnel_pid_visible (some "123") 45) (some "123")
      (some (intStr 45)) = false := by
  have hne : ("" : String) ≠ intStr 45 := fun h => intStr_ne_empty 45 h.symm
  simp [atomicVisible, save_tunnel_pid_visible, inPlaceWriteVisible, hne]

/-- C7 amended: both state-file writers write by truncating the
destination path in place and then writing (`open(path, "w")` followed by
a write), not by write-whole-file-then-rename; a crash after the
truncating open leaves an empty file visible, which is neither the old
nor the final contents, so the write is not atomic — though the empty
intermediate pid file does surface as a parse failure at read time rather
than being silently misread. -/
theorem save_tunnel_pid_truncate_then_write (old : Option String) (pid : Int)
    (h : old ≠ some "") :
    save_tunnel_pid_visible old pid = [old, some "", some (intStr pid)]
    ∧ atomicVisible (save_tunnel_pid_visible old pid) old
        (some (intStr pid)) = false
    ∧ pyParseInt "" = none := by
  refine ⟨rfl, ?_, rfl⟩
  have hne : ("" : String) ≠ intStr pid := fun he => intStr_ne_empty pid he.symm
  have hold : (some "" : Option String) ≠ old := fun he => h he.symm
  simp [atomicVisible, save_tunnel_pid_visible, inPlaceWriteVisible, hne, hold]

/-- C7 amended witness: concrete old contents `"123"` and pid `45`. -/
theorem save_tunnel_pid_truncate_then_write_witness :
    save_tunnel_pid_visible (some "123") 45
      = [some "123", some "", some (intStr 45)]
    ∧ atomicVisible (save_tunnel_pid_visible (some "123") 45) (some "123")
        (some (intStr 45)) = false
    ∧ pyParseInt "" = none :=
  save_tunnel_pid_truncate_then_write (some "123") 45 (by decide)

/-- C3 counterexample: a run whose spawn succeeds but whose pid discovery
fails reports success with `tunnel_pid = None`, yet persists no
TunnelRecord at all (`save_tunnel_pid` writes nothing for a `None` pid) —
refuting the claim that a record with an unknown id is always
persisted. -/
theorem connect_cluster_no_record_on_discovery_failure :
    ((connect_cluster { sshOk := true, realPid := 777, discoveryOk := false }
      "acme-prod1" none none false "10.0.5.20"
      { pidFiles := [], netFiles := [], live := [], spawns := 0 }).1).success
      = true
    ∧ ((connect_cluster { sshOk := true, realPid := 777, discoveryOk := false }
        "acme-prod1" none none false "10.0.5.20"
        { pidFiles := [], netFiles := [], live := [], spawns := 0 }).1).tunnel_pid
      = none
    ∧ fsGet "acme-prod1"
        ((connect_cluster { sshOk := true, realPid := 777, discoveryOk := false }
          "acme-prod1" none none false "10.0.5.20"
          { pidFiles := [], netFiles := [], live := [], spawns := 0 }).2).pidFiles
      = none :=
  ⟨rfl, rfl, rfl⟩

/-- C3 amended: after a successful spawn whose pid discovery fails, the
operation still succeeds rather than failing, but no TunnelRecord is
persisted for the context — the pid is returned as `None` and
`save_tunnel_pid` is a no-op for a `None` pid (a record is persisted only
when a pid was discovered). -/
theorem connect_cluster_succeeds_without_record (env : SpawnEnv)
    (ctx : String) (nt nr : Option String) (nv : Bool) (iip : String)
    (st : TunnelState)
    (h0 : fsGet ctx st.pidFiles = none)
    (h1 : env.sshOk = true)
    (h2 : env.discoveryOk = false) :
    ((connect_cluster env ctx nt nr nv iip st).1).success = true
    ∧ ((connect_cluster env ctx nt nr nv iip st).1).tunnel_pid = none
    ∧ fsGet ctx ((connect_cluster env ctx nt nr nv iip st).2).pidFiles = none
    ∧ ((connect_cluster env ctx nt nr nv iip st).2).spawns = st.spawns + 1 := by
  have hitr : is_tunnel_running ctx st = (false, st) := by
    simp only [is_tunnel_running, h0]
  have hct : create_tunnel env st
      = .ok (none, { st with live := env.realPid :: st.live, spawns := st.spawns + 1 }) := by
    simp [create_tunnel, h1, h2]
  simp only [connect_cluster, hitr, hct, save_tunnel_pid,
    Bool.false_eq_true, if_false]
  refine ⟨trivial, trivial, ?_, ?_⟩
  · split
    · rw [(save_network_metadata_preserves _ _ _ _ _ _ _).1]
      exact h0
    · exact h0
  · split
    · rw [(save_network_metadata_preserves _ _ _ _ _ _ _).2.2]
    · rfl

/-- C3 amended witness: concrete run with spawn ok and discovery failed. -/
theorem connect_cluster_succeeds_without_record_witness :
    ((connect_cluster { sshOk := true, realPid := 777, discoveryOk := false }
      "beta-host2" none none false "10.0.5.21"
      { pidFiles := [], netFiles := [], live := [], spawns := 0 }).1).success
      = true
    ∧ ((connect_cluster { sshOk := true, realPid := 777, discoveryOk := false }
        "beta-host2" none none false "10.0.5.21"
        { pidFiles := [], netFiles := [], live := [], spawns := 0 }).1).tunnel_pid
      = none
    ∧ fsGet "beta-host2"
        ((connect_cluster { sshOk := true, realPid := 777, discoveryOk := false }
          "beta-host2" none none false "10.0.5.21"
          { pidFiles := [], netFiles := [], live := [], spawns := 0 }).2).pidFiles
      = none
    ∧ ((connect_cluster { sshOk := true, realPid := 777, discoveryOk := false }
        "beta-host2" none none false "10.0.5.21"
        { pidFiles := [], netFiles := [], live := [], spawns := 0 }).2).spawns
      = 1 :=
  connect_cluster_succeeds_without_record _ "beta-host2" none none false
    "10.0.5.21" _ rfl rfl rfl

/-- C6: `validate_context_network` returns valid with no warning when no
NetworkMetadata exists; returns not-satisfied whenever the metadata has
`needs_vpn` true; and for `network_type = 'sshuttle'` with a given
`network_range` and no matching routing process (neither the
range-specific probe nor the generic sshuttle probe matches any visible
command line) returns not-satisfied with a remediation warning string
containing that CIDR range. -/
theorem validate_context_network_cases (procs : List String) (ctx : String)
    (st : TunnelState) :
    (get_network_metadata ctx st = none →
      validate_context_network procs ctx st = (true, none))
    ∧ (∀ meta : NetworkMetadata,
        get_network_metadata ctx st = some meta →
        meta.needs_vpn = true →
        validate_context_network procs ctx st
          = (false, some "This cluster requires VPN connection"))
    ∧ (∀ (meta : NetworkMetadata) (r : String),
        get_network_metadata ctx st = some meta →
        meta.needs_vpn = false →
        meta.network_type = some "sshuttle" →
        meta.network_range = some r →
        (∀ c ∈ procs,
          matchDotStar c.toList ("sshuttle".toList) r.toList = false) →
        (∀ c ∈ procs, charsContains c.toList ("sshuttle".toList) = false) →
        (validate_context_network procs ctx st).1 = false
        ∧ ∃ w s₁ s₂, (validate_context_network procs ctx st).2 = some w
            ∧ w = s₁ ++ r ++ s₂) := by
  refine ⟨?_, ?_, ?_⟩
  · intro h
    simp only [validate_context_network, h]
  · intro meta hm hv
    simp only [validate_context_network, hm, hv, if_true]
  · intro meta r hm hv ht hr hmr hg
    have hact : check_sshuttle_active procs r = false := by
      rw [check_sshuttle_active]
      rw [if_neg ?hc1, if_neg ?hc2]
      case hc1 =>
        rw [List.any_eq_true]
        rintro ⟨c, hc, hmatch⟩
        rw [hmr c hc] at hmatch
        exact Bool.false_ne_true hmatch
      case hc2 =>
        rw [List.any_eq_true]
        rintro ⟨c, hc, hmatch⟩
        rw [hg c hc] at hmatch
        exact Bool.false_ne_true hmatch
    have hval : validate_context_network procs ctx st
        = (false, some ("This cluster requires sshuttle for " ++ r
            ++ "\n  Run: " ++ (match meta.sshuttle_command with
              | some c => c
              | none => "sshuttle -v -r <gateway> " ++ r))) := by
      simp only [validate_context_network, hm, hv, ht, hr, Bool.false_eq_true,
        if_false, pyStrOpt, hact, if_true]
    rw [hval]
    refine ⟨rfl, "This cluster requires sshuttle for " ++ r
      ++ "\n  Run: " ++ (match meta.sshuttle_command with
        | some c => c
        | none => "sshuttle -v -r <gateway> " ++ r),
      "This cluster requires sshuttle for ",
      "\n  Run: " ++ (match meta.sshuttle_command with
        | some c => c
        | none => "sshuttle -v -r <gateway> " ++ r), rfl, ?_⟩
    rw [String.append_assoc, String.append_assoc]

/-- C6 witness: the three validator outcomes at concrete inputs — no
metadata, VPN metadata, and unsatisfied sshuttle metadata with range
`192.168.90.0/24` and an empty process table. -/
theorem validate_context_network_cases_witness :
    validate_context_network [] "acme-prod1"
      { pidFiles := [], netFiles := [], live := [], spawns := 0 }
      = (true, none)
    ∧ validate_context_network [] "acme-vpn"
        { pidFiles := [],
          netFiles := [("acme-vpn",
            { network_type := none, network_range := none,
              sshuttle_command := none, needs_vpn := true,
              internal_ip := none })],
          live := [], spawns := 0 }
      = (false, some "This cluster requires VPN connection")
    ∧ (validate_context_network [] "acme-mesh"
        { pidFiles := [],
          netFiles := [("acme-mesh",
            { network_type := some "sshuttle",
              network_range := some "192.168.90.0/24",
              sshuttle_command :=
                some "sshuttle -v -r helio@100.64.5.10 192.168.90.0/24",
              needs_vpn := false, internal_ip := some "192.168.90.10" })],
          live := [], spawns := 0 }).1 = false :=
  ⟨(validate_context_network_cases [] "acme-prod1"
      { pidFiles := [], netFiles := [], live := [], spawns := 0 }).1 rfl,
   (validate_context_network_cases [] "acme-vpn"
      { pidFiles := [],
        netFiles := [("acme-vpn",
          { network_type := none, network_range := none,
            sshuttle_command := none, needs_vpn := true,
            internal_ip := none })],
        live := [], spawns := 0 }).2.1 _ rfl rfl,
   ((validate_context_network_cases [] "acme-mesh"
      { pidFiles := [],
        netFiles := [("acme-mesh",
          { network_type := some "sshuttle",
            network_range := some "192.168.90.0/24",
            sshuttle_command :=
              some "sshuttle -v -r helio@100.64.5.10 192.168.90.0/24",
            needs_vpn := false, internal_ip := some "192.168.90.10" })],
        live := [], spawns := 0 }).2.2 _ "192.168.90.0/24" rfl rfl rfl rfl
      (by intro c hc; exact absurd hc (List.not_mem_nil c))
      (by intro c hc; exact absurd hc (List.not_mem_nil c))).1⟩

/-- C8: idempotent creation — starting from a context with no
TunnelRecord, a first `connect_cluster` whose spawn and pid discovery
succeed spawns exactly once and persists exactly one TunnelRecord, and a
second `connect_cluster` for the same context takes the fast path: it
spawns nothing (whatever its own spawn environment would do), leaves the
record store unchanged, succeeds, returns the existing process id read
from the record, and recomputes the same port from the pure allocator in
both calls. -/
theorem connect_cluster_idempotent (env1 env2 : SpawnEnv) (ctx : String)
    (nt nr : Option String) (nv : Bool) (iip : String) (st : TunnelState)
    (h0 : fsGet ctx st.pidFiles = none)
    (h1 : env1.sshOk = true)
    (h2 : env1.discoveryOk = true)
    (h3 : env1.realPid ≠ 0) :
    ((((connect_cluster env1 ctx nt nr nv iip st).2).pidFiles.filter
        (fun p => p.1 = ctx)).length = 1)
    ∧ ((connect_cluster env2 ctx nt nr nv iip
          (connect_cluster env1 ctx nt nr nv iip st).2).2).pidFiles
      = ((connect_cluster env1 ctx nt nr nv iip st).2).pidFiles
    ∧ ((connect_cluster env2 ctx nt nr nv iip
          (connect_cluster env1 ctx nt nr nv iip st).2).2).spawns
      = ((connect_cluster env1 ctx nt nr nv iip st).2).spawns
    ∧ ((connect_cluster env1 ctx nt nr nv iip st).2).spawns = st.spawns + 1
    ∧ ((connect_cluster env2 ctx nt nr nv iip
          (connect_cluster env1 ctx nt nr nv iip st).2).1).success = true
    ∧ ((connect_cluster env2 ctx nt nr nv iip
          (connect_cluster env1 ctx nt nr nv iip st).2).1).tunnel_pid
      = some env1.realPid
    ∧ ((connect_cluster env1 ctx nt nr nv iip st).1).local_port
      = get_unique_port ctx 16443 10000
    ∧ ((connect_cluster env2 ctx nt nr nv iip
          (connect_cluster env1 ctx nt nr nv iip st).2).1).local_port
      = get_unique_port ctx 16443 10000 := by
  have hitr1 : is_tunnel_running ctx st = (false, st) := by
    simp only [is_tunnel_running, h0]
  have hct1 : create_tunnel env1 st
      = .ok (some env1.realPid, { st with live := env1.realPid :: st.live, spawns := st.spawns + 1 }) := by
    simp [create_tunnel, h1, h2]
  have hfirst :
      ((connect_cluster env1 ctx nt nr nv iip st).2).pidFiles
        = fsPut ctx (intStr env1.realPid) st.pidFiles
      ∧ ((connect_cluster env1 ctx nt nr nv iip st).2).live
        = env1.realPid :: st.live
      ∧ ((connect_cluster env1 ctx nt nr nv iip st).2).spawns = st.spawns + 1
      ∧ ((connect_cluster env1 ctx nt nr nv iip st).1).local_port
        = get_unique_port ctx 16443 10000 := by
    simp only [connect_cluster, hitr1, hct1, save_tunnel_pid, h3,
      Bool.false_eq_true, if_false]
    refine ⟨?_, ?_, ?_, trivial⟩
    · split
      · rw [(save_network_metadata_preserves _ _ _ _ _ _ _).1]
      · rfl
    · split
      · rw [(save_network_metadata_preserves _ _ _ _ _ _ _).2.1]
      · rfl
    · split
      · rw [(save_network_metadata_preserves _ _ _ _ _ _ _).2.2]
      · rfl
  set S1 : TunnelState := (connect_cluster env1 ctx nt nr nv iip st).2
    with hS1def
  obtain ⟨hS1pid, hS1live, hS1spawns, hport1⟩ := hfirst
  have hget2 : fsGet ctx S1.pidFiles = some (intStr env1.realPid) := by
    rw [hS1pid]
    exact fsGet_fsPut_self ctx (intStr env1.realPid) st.pidFiles
  have hmem2 : env1.realPid ∈ S1.live := by
    rw [hS1live]
    exact List.mem_cons_self _ _
  have hitr2 : is_tunnel_running ctx S1 = (true, S1) := by
    simp only [is_tunnel_running, hget2, pyParseInt_intStr, if_pos hmem2]
  have hsecond :
      ((connect_cluster env2 ctx nt nr nv iip S1).2).pidFiles = S1.pidFiles
      ∧ ((connect_cluster env2 ctx nt nr nv iip S1).2).spawns = S1.spawns
      ∧ ((connect_cluster env2 ctx nt nr nv iip S1).1).success = true
      ∧ ((connect_cluster env2 ctx nt nr nv iip S1).1).tunnel_pid
        = some env1.realPid
      ∧ ((connect_cluster env2 ctx nt nr nv iip S1).1).local_port
        = get_unique_port ctx 16443 10000 := by
    simp only [connect_cluster, hitr2, hget2, pyParseInt_intStr, if_true]
    refine ⟨?_, ?_, trivial, trivial, trivial⟩
    · split
      · rw [(save_network_metadata_preserves _ _ _ _ _ _ _).1]
      · rfl
    · split
      · rw [(save_network_metadata_preserves _ _ _ _ _ _ _).2.2]
      · rfl
  refine ⟨?_, hsecond.1, by rw [hsecond.2.1], hS1spawns, hsecond.2.2.1,
    hsecond.2.2.2.1, hport1, hsecond.2.2.2.2⟩
  rw [hS1pid]
  exact fsPut_count_one ctx (intStr env1.realPid) st.pidFiles

/-- C8 witness: a concrete pair of calls — the first spawns with pid 777
discovered, the second runs in an environment whose own spawn would
fail, demonstrating the fast path never reaches it. -/
theorem connect_cluster_idempotent_witness :
    ((((connect_cluster { sshOk := true, realPid := 777, discoveryOk := true }
        "acme-prod1" none none false "10.0.5.20"
        { pidFiles := [], netFiles := [], live := [], spawns := 0 }).2).pidFiles.filter
          (fun p => p.1 = "acme-prod1")).length = 1)
    ∧ ((connect_cluster { sshOk := false, realPid := 555, discoveryOk := false }
          "acme-prod1" none none false "10.0.5.20"
          (connect_cluster { sshOk := true, realPid := 777, discoveryOk := true }
            "acme-prod1" none none false "10.0.5.20"
            { pidFiles := [], netFiles := [], live := [], spawns := 0 }).2).2).pidFiles
      = ((connect_cluster { sshOk := true, realPid := 777, discoveryOk := true }
            "acme-prod1" none none false "10.0.5.20"
            { pidFiles := [], netFiles := [], live := [], spawns := 0 }).2).pidFiles
    ∧ ((connect_cluster { sshOk := false, realPid := 555, discoveryOk := false }
          "acme-prod1" none none false "10.0.5.20"
          (connect_cluster { sshOk := true, realPid := 777, discoveryOk := true }
            "acme-prod1" none none false "10.0.5.20"
            { pidFiles := [], netFiles := [], live := [], spawns := 0 }).2).2).spawns
      = ((connect_cluster { sshOk := true, realPid := 777, discoveryOk := true }
            "acme-prod1" none none false "10.0.5.20"
            { pidFiles := [], netFiles := [], live := [], spawns := 0 }).2).spawns
    ∧ ((connect_cluster { sshOk := true, realPid := 777, discoveryOk := true }
          "acme-prod1" none none false "10.0.5.20"
          { pidFiles := [], netFiles := [], live := [], spawns := 0 }).2).spawns = 1
    ∧ ((connect_cluster { sshOk := false, realPid := 555, discoveryOk := false }
          "acme-prod1" none none false "10.0.5.20"
          (connect_cluster { sshOk := true, realPid := 777, discoveryOk := true }
            "acme-prod1" none none false "10.0.5.20"
            { pidFiles := [], netFiles := [], live := [], spawns := 0 }).2).1).success
      = true
    ∧ ((connect_cluster { sshOk := false, realPid := 555, discoveryOk := false }
          "acme-prod1" none none false "10.0.5.20"
          (connect_cluster { sshOk := true, realPid := 777, discoveryOk := true }
            "acme-prod1" none none false "10.0.5.20"
            { pidFiles := [], netFiles := [], live := [], spawns := 0 }).2).1).tunnel_pid
      = some 777
    ∧ ((connect_cluster { sshOk := true, realPid := 777, discoveryOk := true }
          "acme-prod1" none none false "10.0.5.20"
          { pidFiles := [], netFiles := [], live := [], spawns := 0 }).1).local_port
      = get_unique_port "acme-prod1" 16443 10000
    ∧ ((connect_cluster { sshOk := false, realPid := 555, discoveryOk := false }
          "acme-prod1" none none false "10.0.5.20"
          (connect_cluster { sshOk := true, realPid := 777, discoveryOk := true }
            "acme-prod1" none none false "10.0.5.20"
            { pidFiles := [], netFiles := [], live := [], spawns := 0 }).2).1).local_port
      = get_unique_port "acme-prod1" 16443 10000 :=
  connect_cluster_idempotent
    { sshOk := true, realPid := 777, discoveryOk := true }
    { sshOk := false, realPid := 555, discoveryOk := false }
    "acme-prod1" none none false "10.0.5.20"
    { pidFiles := [], netFiles := [], live := [], spawns := 0 }
    rfl rfl rfl (by decide)

end K9s
